import Mathlib

/-!
Shallow embedding of the sub-issue reporting tool (Go, `src/unnamed/part_000`).

Conventions of the embedding:
* Go `float64` custom-field values are modelled as `Rat` (the program only
  compares them with `0` and adds them; the sentinel for "unset" is `-1.0`).
* Go slices are `List`, Go strings are `String`.
* `time.Time` values (`CreatedAt`/`ClosedAt`) never influence the functions
  under study; the fetcher only needs to know whether `time.Parse` succeeded,
  which is modelled by the boolean fields `createdAtParseOk`/`closedAtParseOk`
  of a raw provider record.
* The GraphQL transport (`client.Execute` plus the URL split into
  owner/repo/number and the pagination loop that drains every page) is
  modelled as an abstract provider `String → Except String (List SubIssueNode)`
  mapping an issue URL to either an error or the fully drained list of
  sub-issue edges.  A mid-pagination failure in Go returns an error and
  discards the pages already read, which the single `Except` result captures.
* `log.Printf` calls are side effects with no influence on results; they are
  not modelled.
-/

namespace SubIssueTool

/-- Constant `estimatedLabel = "見積時間"` (part_000 line 72). -/
def estimatedLabel : String := "見積時間"

/-- Constant `actualLabel = "実績時間"` (part_000 line 73). -/
def actualLabel : String := "実績時間"

/-- Model of `IssueTimeInfo` (part_000 lines 85-100) without the two `time.Time`
fields, which no function under study reads. -/
structure IssueTimeInfo where
  issueURL : String
  title : String
  author : String
  assignees : List String
  state : String
  stateReason : String
  estimatedTime : Rat
  actualTime : Rat
  size : Rat
  labels : List String
  hasParent : Bool
  subIssues : List IssueTimeInfo
deriving Repr

/-- Model of `RuleViolation` (part_000 lines 209-215). -/
structure RuleViolation where
  issueURL : String
  title : String
  assignees : List String
  author : String
  reason : String
deriving Repr, DecidableEq

/-- Model of `IssueSummary` produced by `calculateIssueSummaries`. -/
structure IssueSummary where
  issueURL : String
  title : String
  size : Rat
  totalEstimated : Rat
  totalActual : Rat
  subIssueCount : Nat
  hasRuleViolation : Bool
  violations : List String
deriving Repr, DecidableEq

/-- Go `strings.ToLower`, character-wise (all labels compared by the program
are ASCII, where per-rune lowercasing is exactly this map). -/
def toLowerGo (s : String) : String := ⟨s.data.map Char.toLower⟩

/-- Model of `containsLabelCaseInsensitive` (part_000 lines 2372-2380). -/
def containsLabelCaseInsensitive (labels : List String) (target : String) : Bool :=
  let targetLower := toLowerGo target
  labels.any (fun label => toLowerGo label == targetLower)

/-- Go `strings.Split` on a single-character separator, character-wise over
the string's characters (the program only ever splits on `"/"`). -/
def splitChars (sep : Char) : List Char → List (List Char)
  | [] => [[]]
  | c :: rest =>
    match splitChars sep rest with
    | [] => [[c]]
    | h :: t => if c == sep then [] :: h :: t else (c :: h) :: t

/-- Go `strings.Split s "/"` as a list of strings. -/
def stringsSplitSlash (s : String) : List String :=
  (splitChars (Char.ofNat 0x2f) s.data).map fun cs => ⟨cs⟩

/-- Model of `getIssueNumberFromURL` (part_000 lines 1792-1798): last
`/`-separated component of the URL.  `strings.Split` never returns an empty
slice, so the `"unknown"` default of line 1797 is never used. -/
def getIssueNumberFromURL (url : String) : String :=
  let parts := stringsSplitSlash url
  parts.getLastD "unknown"

/-- Decides whether `needle` occurs at the start of `haystack`. -/
def listStartsWith : List Char → List Char → Bool
  | [], _ => true
  | _ :: _, [] => false
  | a :: as, b :: bs => a == b && listStartsWith as bs

/-- Decides whether `needle` occurs anywhere inside `haystack`. -/
def containsSubList (needle : List Char) : List Char → Bool
  | [] => needle.isEmpty
  | c :: rest => listStartsWith needle (c :: rest) || containsSubList needle rest

/-- The `hasPBI` test used at part_000 lines 230 and 2452. -/
def hasPBI (issue : IssueTimeInfo) : Bool :=
  containsLabelCaseInsensitive issue.labels "pbi" ||
    containsLabelCaseInsensitive issue.labels "dev-pbi"

/-- The `hasSBI` test used at part_000 lines 231, 2420 and 2459. -/
def hasSBI (issue : IssueTimeInfo) : Bool :=
  containsLabelCaseInsensitive issue.labels "sbi" ||
    containsLabelCaseInsensitive issue.labels "dev-sbi"

/-- The difficulty-label scan of part_000 lines 2477-2485 (and 256-264). -/
def hasDifficultyLabel (issue : IssueTimeInfo) : Bool :=
  ["difficulty:low", "difficulty:medium", "difficulty:high"].any
    (fun label => containsLabelCaseInsensitive issue.labels label)

/-- The PBI violation message of part_000 lines 2454-2455. -/
def pbiViolationMessage (issue : IssueTimeInfo) : String :=
  "Issue #" ++ getIssueNumberFromURL issue.issueURL ++
    ": pbi/dev-pbiラベルがありますがSizeが設定されていません"

/-- The `missingFields` list of part_000 lines 2461-2469. -/
def missingFields (issue : IssueTimeInfo) : List String :=
  (if issue.estimatedTime < 0 then ["見積時間"] else []) ++
    (if issue.actualTime < 0 then ["実績時間"] else [])

/-- The SBI missing-fields message of part_000 lines 2472-2473. -/
def sbiViolationMessage (issue : IssueTimeInfo) : String :=
  "Issue #" ++ getIssueNumberFromURL issue.issueURL ++
    ": sbi/dev-sbiラベルがありますが" ++ String.intercalate "と" (missingFields issue) ++
    "が設定されていません"

/-- The difficulty message of part_000 lines 2488-2489. -/
def difficultyViolationMessage (issue : IssueTimeInfo) : String :=
  "Issue #" ++ getIssueNumberFromURL issue.issueURL ++
    ": 難易度ラベル(difficulty:low/medium/high)が設定されていません"

/-- The PBI rule block of `checkIssueRuleViolation` (part_000 lines 2452-2456):
the clause contributed by the Epic-class Size check. -/
def pbiViolationPart (issue : IssueTimeInfo) : List String :=
  if hasPBI issue && decide (issue.size < 0) then [pbiViolationMessage issue] else []

/-- The SBI rule block of `checkIssueRuleViolation` (part_000 lines 2459-2491):
the clauses contributed by the Story-class checks. -/
def sbiViolationPart (issue : IssueTimeInfo) : List String :=
  if hasSBI issue then
    (if (missingFields issue).length > 0 then [sbiViolationMessage issue] else []) ++
      (if !hasDifficultyLabel issue then [difficultyViolationMessage issue] else [])
  else []

/-- Model of `checkIssueRuleViolation` (part_000 lines 2448-2494): the PBI block appends
at most one string, then the SBI block appends at most two. -/
def checkIssueRuleViolation (issue : IssueTimeInfo) : List String :=
  pbiViolationPart issue ++ sbiViolationPart issue

/-- Model of `sumSubIssueTimeAndViolations` (part_000 lines 2413-2445).  The Go loop
`count := len(subIssues)` plus per-element accumulation is written as list
recursion: each element contributes `1` to the count, its own gated
estimated/actual times, its own rule violations, and then its recursively
aggregated sub-tree. -/
def sumSubIssueTimeAndViolations : List IssueTimeInfo → Nat × Rat × Rat × List String
  | [] => (0, 0, 0, [])
  | issue :: rest =>
    let hasSBIHere := containsLabelCaseInsensitive issue.labels "sbi" ||
      containsLabelCaseInsensitive issue.labels "dev-sbi"
    let ownEst : Rat := if hasSBIHere then (if issue.estimatedTime ≥ 0 then issue.estimatedTime else 0) else 0
    let ownAct : Rat := if hasSBIHere then (if issue.actualTime ≥ 0 then issue.actualTime else 0) else 0
    let violations := checkIssueRuleViolation issue
    let sub := sumSubIssueTimeAndViolations issue.subIssues
    let restR := sumSubIssueTimeAndViolations rest
    (1 + sub.1 + restR.1,
     ownEst + sub.2.1 + restR.2.1,
     ownAct + sub.2.2.1 + restR.2.2.1,
     (violations ++ sub.2.2.2) ++ restR.2.2.2)
termination_by l => sizeOf l
decreasing_by
  · cases issue
    simp_arith
  · simp_arith

/-- The `reason` computation of `checkRuleViolations`' inner `checkRecursively`
(part_000 lines 234-272).  Note that line 252 assigns (`reason = ...`) rather
than appends, so an earlier PBI reason is overwritten when the SBI
missing-fields branch fires. -/
def checkReason (issue : IssueTimeInfo) : String :=
  let reason := if hasPBI issue && decide (issue.size < 0) then
      "pbi/dev-pbiラベルが付いているがSizeが設定されていません" else ""
  if hasSBI issue then
    let reason := if (missingFields issue).length > 0 then
        "sbi/dev-sbiラベルが付いていますが、" ++ String.intercalate "と" (missingFields issue) ++
          "が設定されていません"
      else reason
    if !hasDifficultyLabel issue then
      (if reason ≠ "" then reason ++ "。また、" else reason) ++
        "難易度ラベル(difficulty:low/medium/high)が設定されていません"
    else reason
  else reason

/-- The violation record appended at part_000 lines 275-288: assignees if
non-empty, else the author. -/
def mkRuleViolation (issue : IssueTimeInfo) (reason : String) : RuleViolation :=
  let responsible := if issue.assignees.length = 0 then [issue.author] else issue.assignees
  { issueURL := issue.issueURL, title := issue.title, assignees := responsible,
    author := issue.author, reason := reason }

/-- The inner `checkRecursively` of `checkRuleViolations` (part_000 lines
222-294), lifted to the list of issues it is called on: record at most one
violation for the node, then recurse into its sub-issues in order. -/
def checkRecursivelyList : List IssueTimeInfo → List RuleViolation
  | [] => []
  | issue :: rest =>
    let reason := checkReason issue
    ((if reason ≠ "" then [mkRuleViolation issue reason] else []) ++
        checkRecursivelyList issue.subIssues) ++
      checkRecursivelyList rest
termination_by l => sizeOf l
decreasing_by
  · cases issue
    simp_arith
  · simp_arith

/-- Model of `checkRuleViolations` (part_000 lines 218-302). -/
def checkRuleViolations (issues : List IssueTimeInfo) : List RuleViolation :=
  checkRecursivelyList issues

/-- Model of `calculateIssueSummaries` (part_000 lines 2383-2410). -/
def calculateIssueSummaries (issues : List IssueTimeInfo) : List IssueSummary :=
  issues.map (fun issue =>
    let r := sumSubIssueTimeAndViolations issue.subIssues
    let selfViolations := checkIssueRuleViolation issue
    let allViolations := selfViolations ++ r.2.2.2
    { issueURL := issue.issueURL
      title := issue.title
      size := issue.size
      totalEstimated := r.2.1
      totalActual := r.2.2.1
      subIssueCount := r.1
      hasRuleViolation := allViolations.length > 0
      violations := allViolations })

/-- One entry of `fieldValues(first: 50) { nodes }` in the sub-issue GraphQL
response (part_000 lines 1990-2002): a `__typename`, the field name and, for
number-typed values, the number. -/
structure FieldValue where
  typeName : String
  fieldName : String
  number : Option Rat
deriving Repr, DecidableEq

/-- One entry of `projectItems(first: 10) { nodes }` (part_000 lines
1984-2004); only the field values are read by the code under study. -/
structure ProjectItem where
  fieldValues : List FieldValue
deriving Repr, DecidableEq

/-- One sub-issue edge node of `SubIssueQueryResponse` (part_000 lines
336-...).  `createdAtParseOk` models whether `time.Parse(time.RFC3339,
subIssue.CreatedAt)` succeeds (line 2048); `closedAtParseOk` models whether
`ClosedAt` is nil or parses (lines 2057-2067). -/
structure SubIssueNode where
  number : Int
  title : String
  state : String
  stateReason : Option String
  authorLogin : String
  labels : List String
  assignees : List String
  url : String
  createdAtParseOk : Bool
  closedAtParseOk : Bool
  projectItems : List ProjectItem
deriving Repr, DecidableEq

/-- The body of the field-value scan of part_000 lines 2086-2099: a
number-typed field value overwrites the accumulator component named by its
field (estimated, actual, size). -/
def applyNumberFieldValue (acc : Rat × Rat × Rat) (fieldValue : FieldValue) : Rat × Rat × Rat :=
  if fieldValue.typeName == "ProjectV2ItemFieldNumberValue" then
    match fieldValue.number with
    | some n =>
      if fieldValue.fieldName == estimatedLabel then (n, acc.2.1, acc.2.2)
      else if fieldValue.fieldName == actualLabel then (acc.1, n, acc.2.2)
      else if fieldValue.fieldName == "Size" then (acc.1, acc.2.1, n)
      else acc
    | none => acc
  else acc

/-- The custom-field resolution of part_000 lines 2082-2100:
`estimatedTime, actualTime, size := -1.0, -1.0, -1.0` then a scan over all
project items' field values. -/
def resolveCustomFields (projectItems : List ProjectItem) : Rat × Rat × Rat :=
  projectItems.foldl (fun acc item => item.fieldValues.foldl applyNumberFieldValue acc) (-1, -1, -1)

/-- A Flat Provider: maps an issue URL to an error or the fully drained list
of its sub-issue edges.  This folds together the URL split into
owner/repo/number (part_000 lines 1929-1939), `client.Execute` (line 2025)
and the pagination loop (lines 2013-2138); any failure on that path is the
`Except.error` case. -/
def Provider : Type := String → Except String (List SubIssueNode)

/-- The `IssueTimeInfo` built for an included sub-issue edge (part_000 lines
2102-2118), with the empty child list it is initialized with. -/
def subIssueInfoOf (node : SubIssueNode) : IssueTimeInfo :=
  let resolved := resolveCustomFields node.projectItems
  { issueURL := node.url
    title := node.title
    author := node.authorLogin
    assignees := node.assignees
    state := node.state
    stateReason := node.stateReason.getD ""
    estimatedTime := resolved.1
    actualTime := resolved.2.1
    size := resolved.2.2
    labels := node.labels
    hasParent := true
    subIssues := [] }

/-- The per-edge body of the fetch loop (part_000 lines 2031-2130).
Returns `(none, [])` when the edge is skipped by `continue` (completion
filter at lines 2040-2045, createdAt parse at 2047-2052, closedAt parse at
2056-2067); otherwise builds the `IssueTimeInfo` (lines 2102-2118) and asks
`fetchChild` for its children (lines 2120-2127), keeping the node childless
when that call errors.  The second component is the trace of provider
invocations made below this edge. -/
def processSubIssueNode
    (fetchChild : String → Except String (List IssueTimeInfo) × List String)
    (node : SubIssueNode) : Option IssueTimeInfo × List String :=
  let stateReason := node.stateReason.getD ""
  if !(node.state == "CLOSED" && stateReason == "COMPLETED") then (none, [])
  else if !node.createdAtParseOk then (none, [])
  else if !node.closedAtParseOk then (none, [])
  else
    match fetchChild node.url with
    | (.error _, trace) => (some (subIssueInfoOf node), trace)
    | (.ok childIssues, trace) => (some { subIssueInfoOf node with subIssues := childIssues }, trace)

/-- Model of `fetchSubIssuesRecursively` (part_000 lines 1921-2141) recast on the fuel
`(maxDepth - depth).toNat`: Go's entry guard `depth >= maxDepth` is exactly
`fuel = 0`, and the recursive call at `depth+1` is exactly `fuel - 1`.
Besides the fetched issues the function returns the trace of issue URLs the
provider was invoked for, in invocation order. -/
def fetchGo (provider : Provider) :
    Nat → String → Except String (List IssueTimeInfo) × List String
  | 0, _ => (.ok [], [])
  | fuel + 1, issueURL =>
    match provider issueURL with
    | .error e => (.error ("executing GraphQL query for sub-issues: " ++ e), [issueURL])
    | .ok edges =>
      let results := edges.map (fun node =>
        processSubIssueNode (fun url => fetchGo provider fuel url) node)
      (.ok (results.filterMap Prod.fst), issueURL :: results.flatMap Prod.snd)

/-- Model of `fetchSubIssuesRecursively` with its Go signature (`depth`, `maxDepth` as
machine integers), instrumented with the provider-invocation trace. -/
def fetchSubIssuesRecursivelyT (provider : Provider) (issueURL : String)
    (depth maxDepth : Int) : Except String (List IssueTimeInfo) × List String :=
  fetchGo provider (maxDepth - depth).toNat issueURL

/-- Model of `fetchSubIssuesRecursively` (part_000 lines 1921-2141): the result
component alone. -/
def fetchSubIssuesRecursively (provider : Provider) (issueURL : String)
    (depth maxDepth : Int) : Except String (List IssueTimeInfo) :=
  (fetchSubIssuesRecursivelyT provider issueURL depth maxDepth).1

/-- Model of `enrichIssuesWithSubIssues` (part_000 lines 2144-2164), instrumented with
the provider-invocation trace.  On a fetch error the Go code logs and keeps
going with the nil slice it received, so the top-level issue keeps an empty
`SubIssues`; the function itself always returns a nil error. -/
def enrichIssuesWithSubIssuesT (provider : Provider)
    (topLevelIssues : List IssueTimeInfo) (maxDepth : Int) :
    Except String (List IssueTimeInfo) × List String :=
  let results := topLevelIssues.map (fun topIssue =>
    let r := fetchSubIssuesRecursivelyT provider topIssue.issueURL 0 maxDepth
    (match r.1 with
     | .error _ => { topIssue with subIssues := [] }
     | .ok subIssues => { topIssue with subIssues := subIssues },
     r.2))
  (.ok (results.map Prod.fst), results.flatMap Prod.snd)

/-- Model of `enrichIssuesWithSubIssues` (part_000 lines 2144-2164): the result
component alone. -/
def enrichIssuesWithSubIssues (provider : Provider)
    (topLevelIssues : List IssueTimeInfo) (maxDepth : Int) :
    Except String (List IssueTimeInfo) :=
  (enrichIssuesWithSubIssuesT provider topLevelIssues maxDepth).1

/-- Model of `maxRecursionDepth := 5` hard-coded in `main` (part_000 line 638); it is
the only value ever passed to `enrichIssuesWithSubIssues` as `maxDepth`. -/
def mainMaxRecursionDepth : Int := 5

/-! ### Specification-side mirror definitions

These follow the spec's words, to be compared with the source-side functions
above. -/

/-- Mirror of the spec's aggregation rule for estimated time: a node's
`EstimatedTime` is added exactly when the node is Story-class and the field
is set (per the sentinel encoding, non-negative); every node of the subtree
forest is visited. -/
def storyEstimatedSum : List IssueTimeInfo → Rat
  | [] => 0
  | issue :: rest =>
    (if hasSBI issue && decide (issue.estimatedTime ≥ 0) then issue.estimatedTime else 0) +
      storyEstimatedSum issue.subIssues + storyEstimatedSum rest
termination_by l => sizeOf l
decreasing_by
  · cases issue
    simp_arith
  · simp_arith

/-- Mirror of the spec's aggregation rule for actual time. -/
def storyActualSum : List IssueTimeInfo → Rat
  | [] => 0
  | issue :: rest =>
    (if hasSBI issue && decide (issue.actualTime ≥ 0) then issue.actualTime else 0) +
      storyActualSum issue.subIssues + storyActualSum rest
termination_by l => sizeOf l
decreasing_by
  · cases issue
    simp_arith
  · simp_arith

/-- Total number of nodes in a forest of issues. -/
def forestSize : List IssueTimeInfo → Nat
  | [] => 0
  | issue :: rest => 1 + forestSize issue.subIssues + forestSize rest
termination_by l => sizeOf l
decreasing_by
  · cases issue
    simp_arith
  · simp_arith

/-- Total number of nodes of a family: the root plus all materialized
descendants. -/
def familyNodeCount (issue : IssueTimeInfo) : Nat := 1 + forestSize issue.subIssues

/-- Decides whether every node of a forest, recursively, has state `CLOSED`
and close reason `COMPLETED`. -/
def allCompletedForest : List IssueTimeInfo → Bool
  | [] => true
  | issue :: rest =>
    (issue.state == "CLOSED" && issue.stateReason == "COMPLETED" &&
        allCompletedForest issue.subIssues) &&
      allCompletedForest rest
termination_by l => sizeOf l
decreasing_by
  · cases issue
    simp_arith
  · simp_arith

/-! ### Concrete fixtures used by witnesses and counterexamples -/

/-- URL of the synthetic root issue. -/
def urlRoot : String := "https://github.com/acme/proj/issues/1"

/-- URL of the synthetic child issue. -/
def urlChild : String := "https://github.com/acme/proj/issues/2"

/-- URL of the synthetic grandchild issue. -/
def urlGrandchild : String := "https://github.com/acme/proj/issues/3"

/-- URL of the synthetic great-grandchild issue. -/
def urlGreatGrandchild : String := "https://github.com/acme/proj/issues/4"

/-- A CLOSED/COMPLETED sub-issue node with well-formed timestamps. -/
def completedNode (num : Int) (url : String) (labels : List String)
    (projectItems : List ProjectItem) : SubIssueNode :=
  { number := num, title := "task", state := "CLOSED", stateReason := some "COMPLETED",
    authorLogin := "alice", labels := labels, assignees := [], url := url,
    createdAtParseOk := true, closedAtParseOk := true, projectItems := projectItems }

/-- The child node of the synthetic completed chain. -/
def chainChildNode : SubIssueNode := completedNode 2 urlChild [] []

/-- The grandchild node of the synthetic completed chain. -/
def chainGrandchildNode : SubIssueNode := completedNode 3 urlGrandchild [] []

/-- The great-grandchild node of the synthetic completed chain. -/
def chainGreatGrandchildNode : SubIssueNode := completedNode 4 urlGreatGrandchild [] []

/-- A provider serving the chain root → child → grandchild → great-grandchild,
all COMPLETED. -/
def chainProvider : Provider := fun url =>
  if url == urlRoot then .ok [chainChildNode]
  else if url == urlChild then .ok [chainGrandchildNode]
  else if url == urlGrandchild then .ok [chainGreatGrandchildNode]
  else .ok []

/-- The synthetic top-level root issue (Epic-class, Size set). -/
def rootIssue : IssueTimeInfo :=
  { issueURL := urlRoot, title := "root", author := "alice", assignees := [],
    state := "CLOSED", stateReason := "COMPLETED", estimatedTime := -1, actualTime := -1,
    size := 5, labels := ["pbi"], hasParent := false, subIssues := [] }

/-- An OPEN sub-issue node (fails the completion filter). -/
def openChildNode : SubIssueNode :=
  { completedNode 40 "https://github.com/acme/proj/issues/40" [] [] with
    state := "OPEN", stateReason := none }

/-- URL of the self-looping issue reported by `loopProvider`. -/
def urlLoop : String := "https://github.com/acme/proj/issues/7"

/-- The node that `loopProvider` reports as its own child. -/
def loopNode : SubIssueNode := completedNode 7 urlLoop [] []

/-- A provider that reports `loopNode` as a child of every issue — in
particular of itself. -/
def loopProvider : Provider := fun _ => .ok [loopNode]

/-- The forest actually built from `loopProvider` with `n` levels of fuel
left: one copy of the looping node per remaining level. -/
def selfLoopForest : Nat → List IssueTimeInfo
  | 0 => []
  | n + 1 => [{ subIssueInfoOf loopNode with subIssues := selfLoopForest n }]

/-- URL whose child fetch fails under `failingProvider`. -/
def urlFailing : String := "https://github.com/acme/proj/issues/30"

/-- URL of the sibling of the failing node. -/
def urlSibling : String := "https://github.com/acme/proj/issues/31"

/-- A completed child whose own child fetch will fail. -/
def failingChildNode : SubIssueNode := completedNode 30 urlFailing [] []

/-- The completed sibling of `failingChildNode`. -/
def siblingChildNode : SubIssueNode := completedNode 31 urlSibling [] []

/-- A provider whose fetch for `urlFailing` errors while every other fetch
succeeds. -/
def failingProvider : Provider := fun url =>
  if url == urlRoot then .ok [failingChildNode, siblingChildNode]
  else if url == urlFailing then .error "network unreachable"
  else .ok []

/-- A Story-class leaf with Estimated=4, Actual=3, Difficulty=Low. -/
def storyLeaf : IssueTimeInfo :=
  { issueURL := "https://github.com/acme/proj/issues/21", title := "story", author := "alice",
    assignees := ["dave"], state := "CLOSED", stateReason := "COMPLETED",
    estimatedTime := 4, actualTime := 3, size := -1,
    labels := ["sbi", "difficulty:low"], hasParent := true, subIssues := [] }

/-- An Epic-class leaf whose Estimated field is present (7) but which is not
Story-class. -/
def epicLeaf : IssueTimeInfo :=
  { issueURL := "https://github.com/acme/proj/issues/22", title := "epic", author := "alice",
    assignees := [], state := "CLOSED", stateReason := "COMPLETED",
    estimatedTime := 7, actualTime := 6, size := 2,
    labels := ["pbi"], hasParent := true, subIssues := [] }

/-- An item that is both Epic-class and Story-class, with Size, EstimatedTime
and ActualTime all unset and no difficulty label. -/
def epicStoryItem : IssueTimeInfo :=
  { issueURL := "https://github.com/acme/proj/issues/9", title := "both", author := "bob",
    assignees := ["carol"], state := "CLOSED", stateReason := "COMPLETED",
    estimatedTime := -1, actualTime := -1, size := -1,
    labels := ["pbi", "sbi"], hasParent := false, subIssues := [] }

/-- An Epic-class item (upper-case label) with Size unset. -/
def epicNoSizeItem : IssueTimeInfo :=
  { issueURL := "https://github.com/acme/proj/issues/10", title := "epic2", author := "bob",
    assignees := [], state := "CLOSED", stateReason := "COMPLETED",
    estimatedTime := -1, actualTime := -1, size := -1,
    labels := ["PBI"], hasParent := false, subIssues := [] }

/-! ### Helper lemmas -/

/-- The aggregated count equals the number of nodes of the forest. -/
theorem sum_count_eq_forestSize (l : List IssueTimeInfo) :
    (sumSubIssueTimeAndViolations l).1 = forestSize l := by
  induction l using sumSubIssueTimeAndViolations.induct with
  | case1 => simp [sumSubIssueTimeAndViolations, forestSize]
  | case2 issue rest ih1 ih2 =>
    simp [sumSubIssueTimeAndViolations, forestSize, ih1, ih2]

/-- The aggregated estimated total equals the spec-side Story-class sum. -/
theorem sum_est_eq_storyEstimatedSum (l : List IssueTimeInfo) :
    (sumSubIssueTimeAndViolations l).2.1 = storyEstimatedSum l := by
  induction l using sumSubIssueTimeAndViolations.induct with
  | case1 => simp [sumSubIssueTimeAndViolations, storyEstimatedSum]
  | case2 issue rest ih1 ih2 =>
    simp only [sumSubIssueTimeAndViolations, storyEstimatedSum, hasSBI]
    rw [ih1, ih2]
    split_ifs <;> simp_all <;> linarith

/-- The aggregated actual total equals the spec-side Story-class sum. -/
theorem sum_act_eq_storyActualSum (l : List IssueTimeInfo) :
    (sumSubIssueTimeAndViolations l).2.2.1 = storyActualSum l := by
  induction l using sumSubIssueTimeAndViolations.induct with
  | case1 => simp [sumSubIssueTimeAndViolations, storyActualSum]
  | case2 issue rest ih1 ih2 =>
    simp only [sumSubIssueTimeAndViolations, storyActualSum, hasSBI]
    rw [ih1, ih2]
    split_ifs <;> simp_all <;> linarith

/-- Membership characterization of `allCompletedForest`. -/
theorem allCompletedForest_iff (l : List IssueTimeInfo) :
    allCompletedForest l = true ↔
      ∀ i ∈ l, i.state = "CLOSED" ∧ i.stateReason = "COMPLETED" ∧
        allCompletedForest i.subIssues = true := by
  induction l with
  | nil => simp [allCompletedForest]
  | cons i rest ih =>
    simp [allCompletedForest, ih, Bool.and_eq_true, beq_iff_eq]
    tauto

/-- An edge kept by the fetch loop is CLOSED/COMPLETED, carries the edge's
URL, and its children are empty or the child fetch's successful result. -/
theorem processSubIssueNode_some
    {f : String → Except String (List IssueTimeInfo) × List String}
    {node : SubIssueNode} {info : IssueTimeInfo} {tr : List String}
    (h : processSubIssueNode f node = (some info, tr)) :
    info.issueURL = node.url ∧ info.state = "CLOSED" ∧ info.stateReason = "COMPLETED" ∧
      (info.subIssues = [] ∨ (f node.url).1 = .ok info.subIssues) := by
  simp only [processSubIssueNode] at h
  split at h
  · simp at h
  · split at h
    · simp at h
    · split at h
      · simp at h
      · rename_i hguard h1 h2
        rw [Bool.not_eq_true, Bool.not_eq_eq_eq_not, Bool.not_false, Bool.and_eq_true,
          beq_iff_eq, beq_iff_eq] at hguard
        split at h
        · rename_i e trace heq
          rw [Prod.mk.injEq] at h
          obtain ⟨hinfo, htr⟩ := h
          have hinfo2 := Option.some.inj hinfo
          subst hinfo2
          exact ⟨by simp [subIssueInfoOf], by simp [subIssueInfoOf, hguard.1],
            by simp [subIssueInfoOf, hguard.2], Or.inl (by simp [subIssueInfoOf])⟩
        · rename_i childIssues trace heq
          rw [Prod.mk.injEq] at h
          obtain ⟨hinfo, htr⟩ := h
          have hinfo2 := Option.some.inj hinfo
          subst hinfo2
          refine ⟨by simp [subIssueInfoOf], by simp [subIssueInfoOf, hguard.1],
            by simp [subIssueInfoOf, hguard.2], Or.inr ?_⟩
          rw [heq]

/-- Every issue in a successfully fetched forest is CLOSED/COMPLETED,
recursively. -/
theorem fetchGo_ok_allCompleted (p : Provider) :
    ∀ (fuel : Nat) (url : String) (l : List IssueTimeInfo),
      (fetchGo p fuel url).1 = .ok l → allCompletedForest l = true := by
  intro fuel
  induction fuel with
  | zero =>
    intro url l h
    simp only [fetchGo] at h
    have h2 : ([] : List IssueTimeInfo) = l := by simpa using h
    subst h2
    simp [allCompletedForest]
  | succ n ih =>
    intro url l h
    cases hp : p url with
    | error e =>
      rw [fetchGo, hp] at h
      simp at h
    | ok edges =>
      rw [fetchGo, hp] at h
      have h2 : ((edges.map (fun node =>
          processSubIssueNode (fun u => fetchGo p n u) node)).filterMap Prod.fst) = l := by
        simpa using h
      subst h2
      rw [allCompletedForest_iff]
      intro i hi
      rw [List.mem_filterMap] at hi
      obtain ⟨⟨a1, a2⟩, ha, hfa⟩ := hi
      rw [List.mem_map] at ha
      obtain ⟨node, hnode, heq⟩ := ha
      simp only at hfa
      rw [hfa] at heq
      obtain ⟨hurl, hstate, hreason, hsub⟩ := processSubIssueNode_some heq
      refine ⟨hstate, hreason, ?_⟩
      rcases hsub with h0 | hok
      · rw [h0]
        simp [allCompletedForest]
      · exact ih node.url i.subIssues hok

/-! ### Claim theorems -/

/-- C1: a candidate child is included in the built tree only if its state is
CLOSED and its close reason is COMPLETED — every node of a successfully
fetched forest satisfies this, recursively — and a child failing the test is
dropped with no provider invocation below it, so its entire subtree is
pruned. -/

theorem completion_filter_sound :
    (∀ (provider : Provider) (issueURL : String) (depth maxDepth : Int)
        (l : List IssueTimeInfo),
        fetchSubIssuesRecursively provider issueURL depth maxDepth = .ok l →
        allCompletedForest l = true) ∧
      ∀ (fetchChild : String → Except String (List IssueTimeInfo) × List String)
        (node : SubIssueNode),
        ¬(node.state = "CLOSED" ∧ node.stateReason.getD "" = "COMPLETED") →
        processSubIssueNode fetchChild node = (none, []) := by
  constructor
  · intro p url d m l h
    exact fetchGo_ok_allCompleted p _ url l h
  · intro f node hnot
    have hc : (!(node.state == "CLOSED" && node.stateReason.getD "" == "COMPLETED")) = true := by
      cases hs : (node.state == "CLOSED" && node.stateReason.getD "" == "COMPLETED") with
      | false => rfl
      | true => exact absurd (by simpa [Bool.and_eq_true, beq_iff_eq] using hs) hnot
    simp [processSubIssueNode, hc]

/-- Witness for C1 at the concrete chain provider and an OPEN node. -/
theorem completion_filter_sound_witness :
    allCompletedForest
        [{ subIssueInfoOf chainChildNode with
            subIssues := [subIssueInfoOf chainGrandchildNode] }] = true ∧
      processSubIssueNode (fun _ => (.ok [], [])) openChildNode = (none, []) :=
  ⟨completion_filter_sound.1 chainProvider urlRoot 0 2 _ rfl,
    completion_filter_sound.2 _ openChildNode (by decide)⟩

/-- C2 counterexample: with a provider that reports the node at `urlLoop` as
its own child, the repeated occurrence is not excluded: the built tree nests
the node below itself once per remaining depth, and no cycle diagnostic
exists (the result is a plain success). -/
theorem cycle_guard_cex :
    fetchSubIssuesRecursively loopProvider urlLoop 0 3 =
        .ok [{ subIssueInfoOf loopNode with subIssues :=
            [{ subIssueInfoOf loopNode with subIssues := [subIssueInfoOf loopNode] }] }] ∧
      (subIssueInfoOf loopNode).issueURL = urlLoop :=
  ⟨rfl, rfl⟩

/-- Helper for the amended C2: the fetch of the self-loop provider builds one
copy of the looping node per remaining fuel level. -/
theorem fetchGo_loopProvider (fuel : Nat) :
    fetchGo loopProvider fuel urlLoop = (.ok (selfLoopForest fuel), List.replicate fuel urlLoop) := by
  induction fuel with
  | zero => rfl
  | succ n ih =>
    rw [fetchGo]
    simp only [loopProvider]
    simp [processSubIssueNode, ih, selfLoopForest, List.replicate_succ, loopNode, completedNode]

/-- C2 amended: there is no visited set; the builder terminates on a cyclic
provider solely because of the depth bound, re-including the repeated node at
every level until the bound, and produces no cycle diagnostic. -/
theorem cycle_guard_amended (maxDepth : Int) :
    fetchSubIssuesRecursivelyT loopProvider urlLoop 0 maxDepth =
      (.ok (selfLoopForest maxDepth.toNat), List.replicate maxDepth.toNat urlLoop) := by
  unfold fetchSubIssuesRecursivelyT
  rw [sub_zero]
  exact fetchGo_loopProvider maxDepth.toNat

/-- C3: recursion halts once depth reaches maxDepth with no fetch issued, and
for the COMPLETED chain with maxDepth=2 the built family holds root, child
and grandchild but not the great-grandchild, while the provider is never
invoked for the grandchild's URL (whose answer would be the
great-grandchild). -/
theorem depth_bound_halts :
    (∀ (provider : Provider) (issueURL : String) (depth maxDepth : Int),
        depth ≥ maxDepth →
        fetchSubIssuesRecursivelyT provider issueURL depth maxDepth = (.ok [], [])) ∧
      enrichIssuesWithSubIssuesT chainProvider [rootIssue] 2 =
        (.ok [{ rootIssue with subIssues :=
            [{ subIssueInfoOf chainChildNode with
                subIssues := [subIssueInfoOf chainGrandchildNode] }] }],
          [urlRoot, urlChild]) ∧
      urlGrandchild ∉ [urlRoot, urlChild] := by
  refine ⟨?_, by rfl, by decide⟩
  intro p url d m h
  unfold fetchSubIssuesRecursivelyT
  have h0 : (m - d).toNat = 0 := by omega
  rw [h0]
  rfl

/-- Witness for C3's general halting conjunct at depth 5 ≥ maxDepth 3. -/
theorem depth_bound_halts_witness :
    fetchSubIssuesRecursivelyT chainProvider urlRoot 5 3 = (.ok [], []) :=
  depth_bound_halts.1 chainProvider urlRoot 5 3 (by decide)

/-- C4: the aggregated totals equal the spec-side sums that add a node's
estimated/actual time exactly when the node is Story-class and the field is
set, and on the concrete tree with one Story-class descendant (4, 3) and one
Epic-class descendant with its Estimated field present (7) the totals are 4
and 3. -/
theorem aggregator_story_only :
    (∀ (l : List IssueTimeInfo),
        (sumSubIssueTimeAndViolations l).2.1 = storyEstimatedSum l ∧
          (sumSubIssueTimeAndViolations l).2.2.1 = storyActualSum l) ∧
      (sumSubIssueTimeAndViolations [storyLeaf, epicLeaf]).2.1 = 4 ∧
      (sumSubIssueTimeAndViolations [storyLeaf, epicLeaf]).2.2.1 = 3 ∧
      epicLeaf.estimatedTime = 7 := by
  refine ⟨fun l => ⟨sum_est_eq_storyEstimatedSum l, sum_act_eq_storyActualSum l⟩, ?_, ?_, rfl⟩
  · simp +decide [sumSubIssueTimeAndViolations, storyLeaf, epicLeaf, checkIssueRuleViolation,
      pbiViolationPart, sbiViolationPart, hasPBI, hasSBI, hasDifficultyLabel,
      containsLabelCaseInsensitive, missingFields]
  · simp +decide [sumSubIssueTimeAndViolations, storyLeaf, epicLeaf, checkIssueRuleViolation,
      pbiViolationPart, sbiViolationPart, hasPBI, hasSBI, hasDifficultyLabel,
      containsLabelCaseInsensitive, missingFields]

/-- C5: for every family, the reported sub-issue count equals the total
number of nodes of the family minus one — every materialized descendant is
counted exactly once and the root itself is not counted. -/
theorem descendant_count_complete :
    ∀ (issues : List IssueTimeInfo),
      (calculateIssueSummaries issues).map IssueSummary.subIssueCount =
        issues.map (fun issue => familyNodeCount issue - 1) := by
  intro issues
  induction issues with
  | nil => rfl
  | cons i rest ih =>
    simp only [calculateIssueSummaries, List.map_cons, List.cons.injEq] at ih ⊢
    refine ⟨?_, ih⟩
    simp [sum_count_eq_forestSize, familyNodeCount]

/-- C7: an Epic-class item with Size unset contributes exactly the one Size
clause, at the head of its validation result; setting Size to any
non-negative value removes that clause and leaves every other clause
unchanged. -/
theorem epic_size_rule :
    ∀ (issue : IssueTimeInfo) (s : Rat), hasPBI issue = true → issue.size < 0 → 0 ≤ s →
      checkIssueRuleViolation issue =
          pbiViolationMessage issue :: checkIssueRuleViolation { issue with size := s } ∧
        pbiViolationPart { issue with size := s } = [] ∧
        sbiViolationPart { issue with size := s } = sbiViolationPart issue := by
  intro issue s h1 h2 h3
  have hp2 : hasPBI { issue with size := s } = hasPBI issue := rfl
  have hdec : decide (s < 0) = false := decide_eq_false (not_lt.mpr h3)
  have hpart : pbiViolationPart { issue with size := s } = [] := by
    have e1 : ({ issue with size := s } : IssueTimeInfo).size = s := rfl
    simp [pbiViolationPart, hp2, e1, hdec]
  have hsbi : sbiViolationPart { issue with size := s } = sbiViolationPart issue := rfl
  refine ⟨?_, hpart, hsbi⟩
  simp only [checkIssueRuleViolation, hpart, hsbi, List.nil_append]
  simp [pbiViolationPart, h1, h2]

/-- Witness for C7 at a concrete Epic-class item with upper-case label and
unset Size, setting Size to 5. -/
theorem epic_size_rule_witness :
    checkIssueRuleViolation epicNoSizeItem =
        pbiViolationMessage epicNoSizeItem ::
          checkIssueRuleViolation { epicNoSizeItem with size := 5 } ∧
      pbiViolationPart { epicNoSizeItem with size := 5 } = [] ∧
      sbiViolationPart { epicNoSizeItem with size := 5 } = sbiViolationPart epicNoSizeItem :=
  epic_size_rule epicNoSizeItem 5 (by decide) (by decide) (by decide)

/-- C6 counterexample: for an item that is both Epic-class (Size unset, so
the Size clause triggers) and Story-class (both time fields unset, difficulty
missing), `checkRuleViolations` emits one violation whose reason does not
contain the Size clause — a triggered clause is lost — while
`checkIssueRuleViolation` emits three separate strings for the same item
rather than zero or one. -/
theorem single_violation_cex :
    checkRuleViolations [epicStoryItem] =
        [{ issueURL := "https://github.com/acme/proj/issues/9", title := "both",
           assignees := ["carol"], author := "bob",
           reason := "sbi/dev-sbiラベルが付いていますが、見積時間と実績時間が設定されていません。また、難易度ラベル(difficulty:low/medium/high)が設定されていません" }] ∧
      hasPBI epicStoryItem = true ∧ epicStoryItem.size < 0 ∧
      containsSubList "Size".data
          ("sbi/dev-sbiラベルが付いていますが、見積時間と実績時間が設定されていません。また、難易度ラベル(difficulty:low/medium/high)が設定されていません").data = false ∧
      (checkIssueRuleViolation epicStoryItem).length = 3 := by
  refine ⟨?_, by decide, by decide, by decide, by decide⟩
  simp +decide [checkRuleViolations, checkRecursivelyList, checkReason, epicStoryItem,
    mkRuleViolation, hasPBI, hasSBI, missingFields, hasDifficultyLabel,
    containsLabelCaseInsensitive]

/-- C6 amended: `checkRuleViolations` produces at most one violation per item
and none when no clause triggers; the Story-class clauses are concatenated
faithfully, but when an item is both Epic-class with unset Size and
Story-class with a missing time field, the Size clause is overwritten — the
reason is identical to the one computed with Size set — while for an
Epic-class-only item the Size clause is reported. -/
theorem single_violation_amended :
    ∀ (issue : IssueTimeInfo),
      (checkRuleViolations [{ issue with subIssues := [] }]).length ≤ 1 ∧
        (checkReason issue = "" → checkRuleViolations [{ issue with subIssues := [] }] = []) ∧
        (hasPBI issue = true → issue.size < 0 → hasSBI issue = true → missingFields issue ≠ [] →
          checkReason issue = checkReason { issue with size := 0 }) ∧
        (hasPBI issue = true → issue.size < 0 → hasSBI issue = false →
          checkReason issue = "pbi/dev-pbiラベルが付いているがSizeが設定されていません") := by
  intro issue
  have hcr : checkReason { issue with subIssues := [] } = checkReason issue := rfl
  have hbase : checkRuleViolations [{ issue with subIssues := [] }] =
      (if checkReason issue ≠ "" then
        [mkRuleViolation { issue with subIssues := [] } (checkReason issue)] else []) := by
    simp [checkRuleViolations, checkRecursivelyList, hcr]
  refine ⟨?_, ?_, ?_, ?_⟩
  · rw [hbase]
    split_ifs <;> simp
  · intro h0
    rw [hbase, h0]
    simp
  · intro h1 h2 h3 h4
    have hc1 : (hasPBI issue && decide (issue.size < 0)) = true := by simp [h1, h2]
    have e0 : (({ issue with size := 0 } : IssueTimeInfo).size) = 0 := rfl
    have hc2 : (hasPBI { issue with size := 0 } &&
        decide (({ issue with size := 0 } : IssueTimeInfo).size < 0)) = false := by
      rw [e0]
      simp
    have hmf : missingFields { issue with size := 0 } = missingFields issue := rfl
    have hsb : hasSBI { issue with size := 0 } = hasSBI issue := rfl
    have hdl : hasDifficultyLabel { issue with size := 0 } = hasDifficultyLabel issue := rfl
    have hlen : (missingFields issue).length > 0 := List.length_pos.mpr h4
    simp only [checkReason, hc1, hc2, hmf, hsb, hdl, h3, hlen, if_true, if_pos]
  · intro h1 h2 h3
    have hc1 : (hasPBI issue && decide (issue.size < 0)) = true := by simp [h1, h2]
    simp only [checkReason, hc1, h3, if_true, Bool.false_eq_true, if_false]

/-- Witness for the amended C6 at concrete items: the combined item loses its
Size clause, a violation-free Story item yields no violation, and the pure
Epic item keeps its Size clause. -/
theorem single_violation_amended_witness :
    (checkRuleViolations [{ epicStoryItem with subIssues := [] }]).length ≤ 1 ∧
      checkReason epicStoryItem = checkReason { epicStoryItem with size := 0 } ∧
      checkRuleViolations [{ storyLeaf with subIssues := [] }] = [] ∧
      checkReason epicNoSizeItem = "pbi/dev-pbiラベルが付いているがSizeが設定されていません" := by
  refine ⟨(single_violation_amended epicStoryItem).1, ?_, ?_, ?_⟩
  · exact (single_violation_amended epicStoryItem).2.2.1 (by decide) (by decide) (by decide)
      (by decide)
  · exact (single_violation_amended storyLeaf).2.1 (by decide)
  · exact (single_violation_amended epicNoSizeItem).2.2.2 (by decide) (by decide) (by decide)

/-- C8: a fetch error for one node's children is non-fatal — enrichment
always returns a successful result of the same length, the node whose child
fetch errored stays in the tree as a childless leaf, and every sibling edge
is processed independently of it. -/
theorem fetch_error_nonfatal :
    (∀ (provider : Provider) (topLevelIssues : List IssueTimeInfo) (maxDepth : Int),
        ∃ enriched, enrichIssuesWithSubIssues provider topLevelIssues maxDepth = .ok enriched ∧
          enriched.length = topLevelIssues.length) ∧
      (∀ (f : String → Except String (List IssueTimeInfo) × List String)
          (node : SubIssueNode) (e : String) (tr : List String),
          node.state = "CLOSED" → node.stateReason = some "COMPLETED" →
          node.createdAtParseOk = true → node.closedAtParseOk = true →
          f node.url = (.error e, tr) →
          processSubIssueNode f node = (some (subIssueInfoOf node), tr)) ∧
      ∀ (provider : Provider) (issueURL : String) (depth maxDepth : Int)
        (edges : List SubIssueNode),
        depth < maxDepth → provider issueURL = .ok edges →
        fetchSubIssuesRecursively provider issueURL depth maxDepth =
          .ok ((edges.map (processSubIssueNode
              (fun u => fetchSubIssuesRecursivelyT provider u (depth + 1) maxDepth))).filterMap
            Prod.fst) := by
  refine ⟨?_, ?_, ?_⟩
  · intro p l m
    exact ⟨_, rfl, by simp [enrichIssuesWithSubIssues, enrichIssuesWithSubIssuesT]⟩
  · intro f node e tr h1 h2 h3 h4 h5
    simp [processSubIssueNode, h1, h2, h3, h4, h5]
  · intro p url d m edges hdm hp
    unfold fetchSubIssuesRecursively fetchSubIssuesRecursivelyT
    have hstep : (m - d).toNat = (m - (d + 1)).toNat + 1 := by omega
    rw [hstep, fetchGo, hp]

/-- Witness for C8 at the provider that fails for `urlFailing`. -/
theorem fetch_error_nonfatal_witness :
    (∃ enriched, enrichIssuesWithSubIssues failingProvider [rootIssue] 5 = .ok enriched ∧
        enriched.length = 1) ∧
      processSubIssueNode (fun u => (.error "boom", [u])) failingChildNode =
        (some (subIssueInfoOf failingChildNode), [urlFailing]) ∧
      fetchSubIssuesRecursively failingProvider urlRoot 0 5 =
        .ok (([failingChildNode, siblingChildNode].map (processSubIssueNode
            (fun u => fetchSubIssuesRecursivelyT failingProvider u (0 + 1) 5))).filterMap
          Prod.fst) := by
  refine ⟨?_, ?_, ?_⟩
  · exact fetch_error_nonfatal.1 failingProvider [rootIssue] 5
  · exact fetch_error_nonfatal.2.1 (fun u => (.error "boom", [u])) failingChildNode "boom"
      [urlFailing] rfl rfl rfl rfl rfl
  · exact fetch_error_nonfatal.2.2 failingProvider urlRoot 0 5
      [failingChildNode, siblingChildNode] (by decide) rfl

/-- C9 counterexample: with maxDepth = 0 ≤ 0 the family construction is not
rejected — it runs and succeeds, returning the roots unchanged with empty
children — and the program's only maxDepth is the hard-coded constant 5, so
no configuration validation exists at all. -/
theorem maxdepth_validation_cex :
    enrichIssuesWithSubIssuesT chainProvider [rootIssue] 0 =
        (.ok [{ rootIssue with subIssues := [] }], []) ∧
      mainMaxRecursionDepth = 5 :=
  ⟨rfl, rfl⟩

/-- C9 amended: no non-positive-maxDepth rejection exists; maxDepth is the
hard-coded constant 5 in `main`, and if the builder is invoked with
maxDepth ≤ 0 it silently succeeds with no children and issues no fetch,
rather than surfacing a fatal configuration error. -/
theorem maxdepth_no_validation_amended :
    (∀ (provider : Provider) (topLevelIssues : List IssueTimeInfo) (maxDepth : Int),
        maxDepth ≤ 0 →
        enrichIssuesWithSubIssuesT provider topLevelIssues maxDepth =
          (.ok (topLevelIssues.map (fun issue => { issue with subIssues := [] })), [])) ∧
      mainMaxRecursionDepth = 5 := by
  refine ⟨?_, rfl⟩
  intro p l m hm
  have h0 : m.toNat = 0 := by omega
  have h1 : (m - 0).toNat = 0 := by omega
  simp [enrichIssuesWithSubIssuesT, fetchSubIssuesRecursivelyT, h0, h1, fetchGo, List.map_map,
    List.flatMap]

/-- Witness for the amended C9 at maxDepth = −2. -/
theorem maxdepth_no_validation_amended_witness :
    enrichIssuesWithSubIssuesT chainProvider [rootIssue] (-2) =
      (.ok [{ rootIssue with subIssues := [] }], []) := by
  have h := maxdepth_no_validation_amended.1 chainProvider [rootIssue] (-2) (by decide)
  simpa using h

/-- C10: a numeric field is treated as unset exactly when negative — the
Epic-class Size clause triggers iff Size is negative, a time field is listed
as missing iff it is negative, a Story-class node's time field is summed iff
it is non-negative (so a zero field is "set" and adds zero), and absent
custom fields are initialized to the sentinel −1. -/
theorem negative_sentinel_unset :
    ∀ (issue : IssueTimeInfo),
      (pbiViolationPart issue = [] ↔ ¬(hasPBI issue = true ∧ issue.size < 0)) ∧
        ("見積時間" ∈ missingFields issue ↔ issue.estimatedTime < 0) ∧
        ("実績時間" ∈ missingFields issue ↔ issue.actualTime < 0) ∧
        (hasSBI issue = true →
          (sumSubIssueTimeAndViolations [{ issue with subIssues := [] }]).2.1 =
              (if issue.estimatedTime ≥ 0 then issue.estimatedTime else 0) ∧
            (sumSubIssueTimeAndViolations [{ issue with subIssues := [] }]).2.2.1 =
              (if issue.actualTime ≥ 0 then issue.actualTime else 0)) ∧
        resolveCustomFields [] = (-1, -1, -1) := by
  intro issue
  refine ⟨?_, ?_, ?_, ?_, rfl⟩
  · simp only [pbiViolationPart]
    split_ifs with h
    · simp only [Bool.and_eq_true, decide_eq_true_eq] at h
      simp [h]
    · simp only [Bool.and_eq_true, decide_eq_true_eq] at h
      simp [h]
  · simp only [missingFields]
    split_ifs with h1 h2 <;> simp_all
  · simp only [missingFields]
    split_ifs with h1 h2 <;> simp_all
  · intro hs
    have hs2 : (containsLabelCaseInsensitive issue.labels "sbi" ||
        containsLabelCaseInsensitive issue.labels "dev-sbi") = true := hs
    constructor
    · simp [sumSubIssueTimeAndViolations, hs2]
    · simp [sumSubIssueTimeAndViolations, hs2]

/-- Witness for C10 at the concrete Story-class leaf. -/
theorem negative_sentinel_unset_witness :
    (sumSubIssueTimeAndViolations [{ storyLeaf with subIssues := [] }]).2.1 =
        (if storyLeaf.estimatedTime ≥ 0 then storyLeaf.estimatedTime else 0) ∧
      (sumSubIssueTimeAndViolations [{ storyLeaf with subIssues := [] }]).2.2.1 =
        (if storyLeaf.actualTime ≥ 0 then storyLeaf.actualTime else 0) :=
  (negative_sentinel_unset storyLeaf).2.2.2.1 (by decide)

end SubIssueTool